import Mathlib

/-!
Verification development for the Disaster Response Coordination Platform
server. The definitions below are a shallow embedding of the JavaScript
source: the cache-through layer (`src/server/src/services/supabase.js`),
the external adapters (`src/server/src/routes/geocode.js`,
`src/server/src/routes/socialMedia.js`), the mock auth middleware
(`src/server/src/middleware/auth.js`), the ownership check of the
disasters routes (`src/server/src/routes/disasters.js`) and the route
registration order of the resources router. Timestamps are milliseconds
as natural numbers; JavaScript exceptions are `Except`; network calls are
oracle parameters supplying the value the call would have produced (or
the error it would have thrown); `Math.random` draws are explicit
parameters.
-/

namespace DisasterPlatform

/-! ## Environment configuration (process.env) -/

/-- The two environment variables consulted by `services/supabase.js`.
`none` models an unset variable. -/
structure Config where
  supabaseUrl : Option String
  supabaseKey : Option String
deriving DecidableEq, Repr

/-- JavaScript truthiness of an environment variable: unset and the empty
string are falsy. -/
def jsTruthy : Option String → Bool
  | none => false
  | some s => s ≠ ""

/-- The credentials check of `initializeSupabase` (supabase.js lines
11-14): both the URL and the service-role key must be present and not the
placeholder values; otherwise a mock client is returned, i.e. the
Degraded-Mode Detector reports the datastore unavailable. -/
def hasValidCredentialsInit (c : Config) : Bool :=
  jsTruthy c.supabaseUrl && jsTruthy c.supabaseKey &&
    (c.supabaseUrl != some "your_supabase_url_here") &&
    (c.supabaseKey != some "your_supabase_service_role_key_here")

/-- The credentials check done inside `getOrSetCache`, `findNearbyResources`
and `cleanExpiredCache` (supabase.js lines 99-100): only the URL is
inspected. -/
def hasValidCredentialsCache (c : Config) : Bool :=
  jsTruthy c.supabaseUrl && (c.supabaseUrl != some "your_supabase_url_here")

/-! ## TTL cache store -/

/-- A row of the `cache` table: `{ key, value, expires_at }`, `expires_at`
in ms since epoch. -/
structure CacheEntry (α : Type) where
  key : String
  value : α
  expires_at : Nat
deriving DecidableEq, Repr

/-- The state of the real datastore as seen by one `getOrSetCache` call:
its rows, and whether the `select`/`upsert` round-trips fail (the supabase
client reports failures through the `error` field of its result rather
than by throwing). -/
structure Store (α : Type) where
  entries : List (CacheEntry α)
  getFails : Bool
  putFails : Bool
deriving Repr

/-- `select('value, expires_at').eq('key', key).single()`: the row whose
key matches, if any. -/
def lookupEntry (entries : List (CacheEntry α)) (key : String) :
    Option (CacheEntry α) :=
  entries.find? (fun e => e.key == key)

/-- `upsert`: overwrite the row for `key` (the `cache` table has a unique
key column). -/
def upsertEntry (entries : List (CacheEntry α)) (key : String) (v : α)
    (exp : Nat) : List (CacheEntry α) :=
  ⟨key, v, exp⟩ :: entries.filter (fun e => e.key ≠ key)

/-- An error escaping a `getOrSetCache` call: either the producer's own
thrown error, or a TypeError raised by the JavaScript runtime. The mock
client built by `createMockSupabaseClient` (supabase.js lines 38-91)
exposes `insert`/`update`/`delete`/`upsert` only on the object returned
by `from(table).select()`, not on `from(table)` itself, so the write-back
line `supabaseClient.from('cache').upsert(...)` (line 119) crashes with a
TypeError whenever the mock client is in use. -/
inductive JsError (ε : Type) where
  | producer : ε → JsError ε
  | typeError : String → JsError ε
deriving DecidableEq, Repr

/-- The message of the TypeError raised when the write-back line runs
against the mock client (`from('cache').upsert` is undefined there). -/
def upsertTypeErrorMsg : String :=
  "supabaseClient.from(...).upsert is not a function"

/-- Observable outcome of one `getOrSetCache` call: the returned value or
the error the call rejects with (a producer error or a runtime
TypeError), the resulting rows of the real `cache` table, and how many
times the fetcher was invoked and get/upsert requests were issued to the
supabase client. -/
structure CacheOutcome (ε α : Type) where
  result : Except (JsError ε) α
  entries : List (CacheEntry α)
  producerCalls : Nat
  storeGets : Nat
  storePuts : Nat
deriving Repr

/-- The miss path of `getOrSetCache` (supabase.js lines 117-125): invoke
the fetcher; a fetcher error propagates before the write-back line runs.
On fetcher success: with the real client, upsert
`{key, value, expires_at := now + ttl}` — the upsert's outcome is
ignored — and return the fresh value; with the mock client (`usingMock`,
i.e. `initializeSupabase` reported invalid credentials),
`from('cache').upsert` does not exist, so the write-back line throws a
TypeError before any upsert is issued and the fresh value is never
returned. -/
def cacheCompute (st : Store α) (now : Nat) (key : String)
    (fetcher : Except ε α) (ttlHours : Nat) (usingMock : Bool) :
    CacheOutcome ε α :=
  match fetcher with
  | .error e =>
    { result := .error (.producer e), entries := st.entries,
      producerCalls := 1, storeGets := 1, storePuts := 0 }
  | .ok v =>
    if usingMock then
      { result := .error (.typeError upsertTypeErrorMsg),
        entries := st.entries,
        producerCalls := 1, storeGets := 1, storePuts := 0 }
    else
      { result := .ok v,
        entries :=
          if st.putFails then st.entries
          else upsertEntry st.entries key v (now + ttlHours * 3600000),
        producerCalls := 1, storeGets := 1, storePuts := 1 }

/-- `getOrSetCache(key, fetcher, ttlHours = 1)` (supabase.js lines
95-126). If the URL-only credentials check fails, skip the cache and call
the fetcher directly. Otherwise issue the get; only its `data` field is
consulted (the `error` field is discarded by the destructuring
`const { data }`), so a failed get reads as no row. A row with
`expires_at > now` is a hit returned without invoking the fetcher;
anything else falls through to `cacheCompute`. -/
def getOrSetCache (cfg : Config) (st : Store α) (now : Nat) (key : String)
    (fetcher : Except ε α) (ttlHours : Nat := 1) : CacheOutcome ε α :=
  if hasValidCredentialsCache cfg then
    let usingMock := !hasValidCredentialsInit cfg
    let data : Option (CacheEntry α) :=
      if usingMock || st.getFails then none
      else lookupEntry st.entries key
    match data with
    | some e =>
      if now < e.expires_at then
        { result := .ok e.value, entries := st.entries,
          producerCalls := 0, storeGets := 1, storePuts := 0 }
      else
        cacheCompute st now key fetcher ttlHours usingMock
    | none => cacheCompute st now key fetcher ttlHours usingMock
  else
    { result := fetcher.mapError JsError.producer, entries := st.entries,
      producerCalls := 1, storeGets := 0, storePuts := 0 }

/-- `cleanExpiredCache` (supabase.js lines 154-173): in mock mode do
nothing; otherwise delete every row with `expires_at < now`. -/
def cleanExpiredCache (cfg : Config) (entries : List (CacheEntry α))
    (now : Nat) : List (CacheEntry α) :=
  if hasValidCredentialsCache cfg then
    entries.filter (fun e => ¬ e.expires_at < now)
  else
    entries

/-! ## Geocoding adapter (routes/geocode.js) -/

/-- `new Date(ms).toISOString()`, modelled as an injective encoding of the
millisecond timestamp. -/
def toISOString (ms : Nat) : String :=
  "ISO(" ++ toString ms ++ ")"

/-- Result shape of `performGeocoding`: `{location_name, lat, lon,
confidence}` (coordinates as rationals). -/
structure GeoResult where
  location_name : String
  lat : ℚ
  lon : ℚ
  confidence : ℚ
deriving DecidableEq, Repr

/-- The mock geocoding result returned by `performGeocoding` when the API
keys are not configured (geocode.js lines 42-47). -/
def mockGeocodingResult : GeoResult :=
  { location_name := "Mock Location (API keys not configured)",
    lat := 40.7589, lon := -73.9851, confidence := 0.5 }

/-- `c = '"' or c = '\''`, the character class of the regex
`/^["']|["']\x24/g`. -/
def isQuoteChar (c : Char) : Bool :=
  c = '"' || c = '\''

/-- `.replace(/^["']|["']\x24/g, '')` on a string: remove one leading and
one trailing quote character if present. -/
def stripEdgeQuotes (s : String) : String :=
  let cs0 := s.toList
  let cs1 :=
    match cs0 with
    | c :: rest => if isQuoteChar c then rest else cs0
    | [] => []
  let cs2 :=
    match cs1.getLast? with
    | some c => if isQuoteChar c then cs1.dropLast else cs1
    | none => cs1
  String.mk cs2

/-- `extractLocationWithGemini` (geocode.js lines 68-98). The oracle is
the text the Gemini call would yield; `.error` stands for a transport or
parse failure inside the `try`. Any failure is rethrown as the fixed
message; a success is trimmed and stripped of surrounding quotes. -/
def extractLocationWithGemini (oracle : Except String String) :
    Except String String :=
  match oracle with
  | .error _ => .error "Failed to extract location with Gemini API"
  | .ok raw => .ok (stripEdgeQuotes raw.trim)

/-- A Mapbox geocoding feature: `center = [lon, lat]` and `relevance`. -/
structure MapboxFeature where
  centerLon : ℚ
  centerLat : ℚ
  relevance : ℚ
deriving DecidableEq, Repr

/-- `{lat, lon, confidence}` as returned by `geocodeWithMapbox`. -/
structure MapboxCoord where
  lat : ℚ
  lon : ℚ
  confidence : ℚ
deriving DecidableEq, Repr

/-- `geocodeWithMapbox` (geocode.js lines 100-121). The oracle is the
feature list of the Mapbox response; a transport/parse failure, and the
"no coordinates found" throw for an empty feature list, are both caught by
the function's own catch and rethrown as the fixed message.
`confidence = relevance || 0.8` (zero is falsy). -/
def geocodeWithMapbox (oracle : Except String (List MapboxFeature)) :
    Except String MapboxCoord :=
  match oracle with
  | .error _ => .error "Failed to geocode with Mapbox API"
  | .ok feats =>
    match feats with
    | [] => .error "Failed to geocode with Mapbox API"
    | f :: _ =>
      .ok { lat := f.centerLat, lon := f.centerLon,
            confidence := if f.relevance = 0 then 0.8 else f.relevance }

/-- `performGeocoding` (geocode.js lines 33-66). With either API key
missing, return the mock result. Otherwise run the two live steps; an
error from either is caught and rethrown as
`Geocoding failed: <message>` — there is no fallback to the mock result
on this path. -/
def performGeocoding (geminiApiKey mapboxToken : Option String)
    (geminiOracle : Except String String)
    (mapboxOracle : Except String (List MapboxFeature)) :
    Except String GeoResult :=
  if !(jsTruthy geminiApiKey && jsTruthy mapboxToken) then
    .ok mockGeocodingResult
  else
    match extractLocationWithGemini geminiOracle with
    | .error msg => .error ("Geocoding failed: " ++ msg)
    | .ok locationName =>
      match geocodeWithMapbox mapboxOracle with
      | .error msg => .error ("Geocoding failed: " ++ msg)
      | .ok coordinates =>
        .ok { location_name := locationName,
              lat := coordinates.lat, lon := coordinates.lon,
              confidence :=
                if coordinates.confidence = 0 then 0.8
                else coordinates.confidence }

/-! ## Social media adapters (routes/socialMedia.js) -/

/-- `{likes, retweets, replies}`. -/
structure Engagement where
  likes : Nat
  retweets : Nat
  replies : Nat
deriving DecidableEq, Repr

/-- Shape of a social media post as produced by both the mock generator
and the Twitter mapping. The Twitter mapping leaves `location` absent
(`none`). -/
structure SocialPost where
  id : String
  platform : String
  content : String
  author : String
  author_verified : Bool
  timestamp : String
  engagement : Engagement
  location : Option String
  verified : Bool
deriving DecidableEq, Repr

/-- `generateMockSocialMediaPosts` (socialMedia.js lines 122-172): three
fixed posts; ids and timestamps derive from `Date.now()` (`now`, ms). -/
def generateMockSocialMediaPosts (platform : String) (now : Nat) :
    List SocialPost :=
  [ { id := "post_" ++ toString now ++ "_1", platform,
      content := "Heavy flooding reported in the downtown area. Emergency services are responding.",
      author := "@local_reporter", author_verified := true,
      timestamp := toISOString (now - 300000),
      engagement := ⟨45, 12, 8⟩,
      location := some "Downtown Area", verified := true },
    { id := "post_" ++ toString now ++ "_2", platform,
      content := "Just saw emergency vehicles heading towards the affected area. Stay safe everyone!",
      author := "@concerned_citizen", author_verified := false,
      timestamp := toISOString (now - 600000),
      engagement := ⟨23, 5, 3⟩,
      location := some "Near Main Street", verified := false },
    { id := "post_" ++ toString now ++ "_3", platform,
      content := "Official evacuation order issued for residents in flood-prone areas. Please follow instructions.",
      author := "@city_emergency", author_verified := true,
      timestamp := toISOString (now - 900000),
      engagement := ⟨156, 89, 23⟩,
      location := some "City Hall", verified := true } ]

/-- One tweet of the Twitter search response. -/
structure Tweet where
  id : String
  text : String
  created_at : String
deriving DecidableEq, Repr

/-- `fetchTwitterPosts` (socialMedia.js lines 174-206). The oracle is the
tweet list of the Twitter API response (`.error` for any transport/parse
failure); `rand i` supplies the three `Math.random` engagement draws for
the tweet at index `i`. On failure the function falls back to
`generateMockSocialMediaPosts(null, 'twitter')`. -/
def fetchTwitterPosts (now : Nat) (rand : Nat → Engagement)
    (oracle : Except String (List Tweet)) : List SocialPost :=
  match oracle with
  | .error _ => generateMockSocialMediaPosts "twitter" now
  | .ok tweets =>
    tweets.enum.map (fun p =>
      { id := p.2.id, platform := "twitter", content := p.2.text,
        author := "@user_" ++ p.2.id, author_verified := false,
        timestamp := p.2.created_at, engagement := rand p.1,
        location := none, verified := false })

/-- A title/content/timestamp triple extracted by the scraper's
structural selectors from one matched page element (already trimmed). -/
structure RawItem where
  title : String
  content : String
  timestamp : String
deriving DecidableEq, Repr

/-- Shape of an official update entry. -/
structure OfficialUpdate where
  id : String
  source : String
  title : String
  content : String
  timestamp : String
  priority : String
  url : String
deriving DecidableEq, Repr

/-- JavaScript `s || dflt` for an optional query parameter: unset and the
empty string fall through to the default. -/
def jsOr (s : Option String) (dflt : String) : String :=
  match s with
  | some v => if v = "" then dflt else v
  | none => dflt

/-- `officialSources[source] || officialSources.fema` (socialMedia.js
lines 210-216). -/
def officialSourceUrl (source : Option String) : String :=
  match source with
  | some "fema" => "https://www.fema.gov/news-disasters"
  | some "redcross" => "https://www.redcross.org/about-us/news-and-events/news.html"
  | some "weather" => "https://www.weather.gov/news"
  | _ => "https://www.fema.gov/news-disasters"

/-- `generateMockOfficialUpdates` (socialMedia.js lines 263-293): exactly
three fixed-shape entries. -/
def generateMockOfficialUpdates (source : Option String) (now : Nat) :
    List OfficialUpdate :=
  [ { id := "update_" ++ toString now ++ "_1",
      source := jsOr source "City Emergency Management",
      title := "Evacuation Order Issued",
      content := "Residents in affected areas are ordered to evacuate immediately. Emergency shelters are open at the following locations...",
      timestamp := toISOString now, priority := "high", url := "#" },
    { id := "update_" ++ toString now ++ "_2",
      source := jsOr source "National Weather Service",
      title := "Severe Weather Warning Extended",
      content := "The severe weather warning has been extended for the next 6 hours. Heavy rainfall and flooding expected.",
      timestamp := toISOString (now - 1800000), priority := "high",
      url := "#" },
    { id := "update_" ++ toString now ++ "_3",
      source := jsOr source "Red Cross",
      title := "Emergency Response Team Deployed",
      content := "Red Cross emergency response teams have been deployed to provide assistance to affected communities.",
      timestamp := toISOString (now - 3600000), priority := "medium",
      url := "#" } ]

/-- The `each` loop of `scrapeOfficialUpdates` (socialMedia.js lines
232-248): an element at selector index `i` contributes an update only if
both its title and its content are non-empty; `i` counts every matched
element, skipped or not. -/
def extractUpdates (source : Option String) (now : Nat)
    (items : List RawItem) : List OfficialUpdate :=
  items.enum.filterMap (fun p =>
    if p.2.title ≠ "" ∧ p.2.content ≠ "" then
      some { id := "update_" ++ toString now ++ "_" ++ toString p.1,
             source := jsOr source "official",
             title := p.2.title,
             content := p.2.content.take 500,
             timestamp :=
               if p.2.timestamp = "" then toISOString now
               else p.2.timestamp,
             priority := "medium",
             url := officialSourceUrl source }
    else none)

/-- `scrapeOfficialUpdates` (socialMedia.js lines 208-261). The oracle is
the list of element triples the selectors find on the fetched page
(`.error` for a fetch failure). A fetch failure, and a successful fetch
from which zero updates are extracted, both yield the mock payload;
otherwise at most the first 10 extracted updates are returned. -/
def scrapeOfficialUpdates (source : Option String) (now : Nat)
    (oracle : Except String (List RawItem)) : List OfficialUpdate :=
  match oracle with
  | .error _ => generateMockOfficialUpdates source now
  | .ok items =>
    let updates := extractUpdates source now items
    if updates.length = 0 then generateMockOfficialUpdates source now
    else updates.take 10

/-! ## Express router dispatch (resources router, src/unnamed/part_002) -/

/-- A segment of an Express route pattern: a literal (`/types`) or a
parameter (`/:id`). -/
inductive Seg where
  | lit : String → Seg
  | param : String → Seg
deriving DecidableEq, Repr

/-- Whether a pattern matches a request path (split into segments): a
literal segment must equal the path segment, a parameter segment matches
any path segment. -/
def segMatches : List Seg → List String → Bool
  | [], [] => true
  | Seg.lit s :: ps, x :: xs => s == x && segMatches ps xs
  | Seg.param _ :: ps, _ :: xs => segMatches ps xs
  | _, _ => false

/-- The parameter bindings a matching pattern produces (`req.params`). -/
def segBindings : List Seg → List String → List (String × String)
  | Seg.lit _ :: ps, _ :: xs => segBindings ps xs
  | Seg.param n :: ps, x :: xs => (n, x) :: segBindings ps xs
  | _, _ => []

/-- Express dispatch: the first registered route whose pattern matches
the path handles the request; returns its handler name and parameter
bindings. -/
def dispatch (routes : List (String × List Seg)) (path : List String) :
    Option (String × List (String × String)) :=
  (routes.find? (fun r => segMatches r.2 path)).map
    (fun r => (r.1, segBindings r.2 path))

/-- The GET routes of the resources router in registration order
(src/unnamed/part_002): `/` at line 56, `/:id` at line 117, `/nearby` at
line 259, `/types` at line 296. -/
def resourcesGetRoutes : List (String × List Seg) :=
  [("listResources", []),
   ("getResourceById", [Seg.param "id"]),
   ("getNearbyResources", [Seg.lit "nearby"]),
   ("getResourceTypes", [Seg.lit "types"])]

/-! ## Auth middleware and disaster ownership check -/

/-- A mock user `{id, role}` (middleware/auth.js). -/
structure User where
  id : String
  role : String
deriving DecidableEq, Repr

/-- The two hard-coded mock users (auth.js lines 5-8). -/
def mockUsers : List User :=
  [⟨"u1", "admin"⟩, ⟨"u2", "contributor"⟩]

/-- `authMiddleware` (auth.js lines 3-16): attaches
`mockUsers[Math.floor(Math.random() * mockUsers.length)]` to the request.
The random draw is the explicit `coin` parameter; the request itself is
taken but never consulted. -/
def authMiddleware {ρ : Type} (req : ρ) (coin : Fin 2) : User :=
  mockUsers.get ⟨coin.val, coin.isLt⟩

/-- The fields of a disaster row consulted by the ownership check. -/
structure Disaster where
  id : String
  owner_id : String
deriving DecidableEq, Repr

/-- Outcome of the ownership-checked part of `PUT /disasters/:id` and
`DELETE /disasters/:id` (disasters.js lines 139-149 and 216-226). -/
inductive OwnershipOutcome where
  | notFound
  | forbidden
  | proceeds
deriving DecidableEq, Repr

/-- The ownership gate shared by the update and delete handlers: 404 when
the row is absent, 403 when `existing.owner_id !== user.id && user.role
!== 'admin'`, otherwise the operation proceeds. -/
def ownershipCheck (existing : Option Disaster) (user : User) :
    OwnershipOutcome :=
  match existing with
  | none => .notFound
  | some d =>
    if d.owner_id ≠ user.id ∧ user.role ≠ "admin" then .forbidden
    else .proceeds

/-! ## Helper lemmas -/

/-- The full credentials check of `initializeSupabase` implies the
URL-only check done inside `getOrSetCache`. -/
theorem cacheCheck_of_init (cfg : Config)
    (h : hasValidCredentialsInit cfg = true) :
    hasValidCredentialsCache cfg = true := by
  unfold hasValidCredentialsInit at h
  unfold hasValidCredentialsCache
  simp only [Bool.and_eq_true] at h ⊢
  exact ⟨h.1.1.1, h.1.2⟩

/-- Looking up a key immediately after upserting it finds the fresh
entry. -/
theorem lookupEntry_upsert_self {α : Type} (entries : List (CacheEntry α))
    (key : String) (v : α) (exp : Nat) :
    lookupEntry (upsertEntry entries key v exp) key = some ⟨key, v, exp⟩ := by
  simp [lookupEntry, upsertEntry, List.find?]

/-- With live credentials, a working store and no row for the key,
`getOrSetCache` invokes the fetcher, upserts its result with expiry
`now + ttl`, and returns it. -/
theorem getOrSetCache_miss_ok {α ε : Type} (cfg : Config) (st : Store α)
    (now ttlHours : Nat) (key : String) (v : α)
    (hLive : hasValidCredentialsInit cfg = true)
    (hGet : st.getFails = false) (hPut : st.putFails = false)
    (hMiss : lookupEntry st.entries key = none) :
    getOrSetCache cfg st now key (Except.ok v : Except ε α) ttlHours =
      ⟨Except.ok v, upsertEntry st.entries key v (now + ttlHours * 3600000),
       1, 1, 1⟩ := by
  have hCache := cacheCheck_of_init cfg hLive
  simp [getOrSetCache, cacheCompute, hCache, hLive, hGet, hPut, hMiss]

/-- With live credentials and a working store, an unexpired row for the
key is returned as a hit: the fetcher is not invoked and nothing is
written. -/
theorem getOrSetCache_hit {α ε : Type} (cfg : Config) (st : Store α)
    (now ttlHours : Nat) (key : String) (fetcher : Except ε α)
    (e : CacheEntry α)
    (hLive : hasValidCredentialsInit cfg = true)
    (hGet : st.getFails = false)
    (hFound : lookupEntry st.entries key = some e)
    (hFresh : now < e.expires_at) :
    getOrSetCache cfg st now key fetcher ttlHours =
      ⟨Except.ok e.value, st.entries, 0, 1, 0⟩ := by
  have hCache := cacheCheck_of_init cfg hLive
  simp [getOrSetCache, hCache, hLive, hGet, hFound, hFresh]

/-- With live credentials and a working store, an expired row for the key
is treated as a miss: the fetcher runs and its result replaces the row. -/
theorem getOrSetCache_expired_ok {α ε : Type} (cfg : Config) (st : Store α)
    (now ttlHours : Nat) (key : String) (v : α) (e : CacheEntry α)
    (hLive : hasValidCredentialsInit cfg = true)
    (hGet : st.getFails = false) (hPut : st.putFails = false)
    (hFound : lookupEntry st.entries key = some e)
    (hStale : ¬ now < e.expires_at) :
    getOrSetCache cfg st now key (Except.ok v : Except ε α) ttlHours =
      ⟨Except.ok v, upsertEntry st.entries key v (now + ttlHours * 3600000),
       1, 1, 1⟩ := by
  have hCache := cacheCheck_of_init cfg hLive
  simp [getOrSetCache, cacheCompute, hCache, hLive, hGet, hPut, hFound,
    hStale]

/-! ## Claims -/

/-- C1: with the store live and no prior row for the key, two
`getOrSetCache` calls within the TTL invoke the producer exactly once —
the second call returns the stored value because its `expires_at` is
still in the future — and a call after the TTL has elapsed invokes the
producer again. -/
theorem C1_ttl_correct {α ε : Type} (cfg : Config) (st0 : Store α)
    (key : String) (v1 v2 v3 : α) (t0 t1 t2 : Nat)
    (hLive : hasValidCredentialsInit cfg = true)
    (hGet : st0.getFails = false) (hPut : st0.putFails = false)
    (hMiss : lookupEntry st0.entries key = none)
    (hWithin : t1 < t0 + 3600000)
    (hAfter : t0 + 3600000 ≤ t2) :
    (getOrSetCache cfg st0 t0 key (Except.ok v1 : Except ε α)).producerCalls = 1 ∧
    (getOrSetCache cfg st0 t0 key (Except.ok v1 : Except ε α)).result = Except.ok v1 ∧
    (getOrSetCache cfg
      { st0 with entries := (getOrSetCache cfg st0 t0 key (Except.ok v1 : Except ε α)).entries }
      t1 key (Except.ok v2 : Except ε α)).producerCalls = 0 ∧
    (getOrSetCache cfg
      { st0 with entries := (getOrSetCache cfg st0 t0 key (Except.ok v1 : Except ε α)).entries }
      t1 key (Except.ok v2 : Except ε α)).result = Except.ok v1 ∧
    (getOrSetCache cfg
      { st0 with entries := (getOrSetCache cfg st0 t0 key (Except.ok v1 : Except ε α)).entries }
      t2 key (Except.ok v3 : Except ε α)).producerCalls = 1 ∧
    (getOrSetCache cfg
      { st0 with entries := (getOrSetCache cfg st0 t0 key (Except.ok v1 : Except ε α)).entries }
      t2 key (Except.ok v3 : Except ε α)).result = Except.ok v3 := by
  have h1 := getOrSetCache_miss_ok (ε := ε) cfg st0 t0 1 key v1 hLive hGet
    hPut hMiss
  rw [h1]
  have hFound : lookupEntry
      (upsertEntry st0.entries key v1 (t0 + 1 * 3600000)) key =
      some ⟨key, v1, t0 + 1 * 3600000⟩ :=
    lookupEntry_upsert_self st0.entries key v1 (t0 + 1 * 3600000)
  have hFresh : t1 < t0 + 1 * 3600000 := by omega
  have hStale : ¬ t2 < t0 + 1 * 3600000 := by omega
  have h2 := getOrSetCache_hit (ε := ε) cfg
    { st0 with entries := upsertEntry st0.entries key v1 (t0 + 1 * 3600000) }
    t1 1 key (Except.ok v2) ⟨key, v1, t0 + 1 * 3600000⟩ hLive hGet hFound
    hFresh
  have h3 := getOrSetCache_expired_ok (ε := ε) cfg
    { st0 with entries := upsertEntry st0.entries key v1 (t0 + 1 * 3600000) }
    t2 1 key v3 ⟨key, v1, t0 + 1 * 3600000⟩ hLive hGet hPut hFound hStale
  rw [h2, h3]
  exact ⟨rfl, rfl, rfl, rfl, rfl, rfl⟩

/-- Witness for C1 at a concrete configuration, key, times and values. -/
theorem C1_ttl_correct_witness :
    (getOrSetCache ⟨some "https://example.supabase.co", some "svc-key"⟩
      (⟨[], false, false⟩ : Store Nat) 0 "geocode:abc"
      (Except.ok 10 : Except String Nat)).producerCalls = 1 ∧
    (getOrSetCache ⟨some "https://example.supabase.co", some "svc-key"⟩
      (⟨[], false, false⟩ : Store Nat) 0 "geocode:abc"
      (Except.ok 10 : Except String Nat)).result = Except.ok 10 ∧
    (getOrSetCache ⟨some "https://example.supabase.co", some "svc-key"⟩
      { (⟨[], false, false⟩ : Store Nat) with
        entries := (getOrSetCache ⟨some "https://example.supabase.co", some "svc-key"⟩
          (⟨[], false, false⟩ : Store Nat) 0 "geocode:abc"
          (Except.ok 10 : Except String Nat)).entries }
      1800000 "geocode:abc" (Except.ok 20 : Except String Nat)).producerCalls = 0 ∧
    (getOrSetCache ⟨some "https://example.supabase.co", some "svc-key"⟩
      { (⟨[], false, false⟩ : Store Nat) with
        entries := (getOrSetCache ⟨some "https://example.supabase.co", some "svc-key"⟩
          (⟨[], false, false⟩ : Store Nat) 0 "geocode:abc"
          (Except.ok 10 : Except String Nat)).entries }
      1800000 "geocode:abc" (Except.ok 20 : Except String Nat)).result = Except.ok 10 ∧
    (getOrSetCache ⟨some "https://example.supabase.co", some "svc-key"⟩
      { (⟨[], false, false⟩ : Store Nat) with
        entries := (getOrSetCache ⟨some "https://example.supabase.co", some "svc-key"⟩
          (⟨[], false, false⟩ : Store Nat) 0 "geocode:abc"
          (Except.ok 10 : Except String Nat)).entries }
      3600000 "geocode:abc" (Except.ok 30 : Except String Nat)).producerCalls = 1 ∧
    (getOrSetCache ⟨some "https://example.supabase.co", some "svc-key"⟩
      { (⟨[], false, false⟩ : Store Nat) with
        entries := (getOrSetCache ⟨some "https://example.supabase.co", some "svc-key"⟩
          (⟨[], false, false⟩ : Store Nat) 0 "geocode:abc"
          (Except.ok 10 : Except String Nat)).entries }
      3600000 "geocode:abc" (Except.ok 30 : Except String Nat)).result = Except.ok 30 :=
  C1_ttl_correct ⟨some "https://example.supabase.co", some "svc-key"⟩
    ⟨[], false, false⟩ "geocode:abc" 10 20 30 0 1800000 3600000
    (by decide) rfl rfl rfl (by decide) (by decide)

/-- C3 counterexample: with live credentials, a failing store get
(`getFails = true`) and even a fresh row for the key present,
`getOrSetCache` returns the producer's value with the producer invoked —
no storage error is surfaced; the failure is treated as a cache miss. -/
theorem C3_counterexample :
    (getOrSetCache ⟨some "https://example.supabase.co", some "svc-key"⟩
      (⟨[⟨"k", 42, 99999999⟩], true, false⟩ : Store Nat) 0 "k"
      (Except.ok 7 : Except String Nat)).result = Except.ok 7 ∧
    (getOrSetCache ⟨some "https://example.supabase.co", some "svc-key"⟩
      (⟨[⟨"k", 42, 99999999⟩], true, false⟩ : Store Nat) 0 "k"
      (Except.ok 7 : Except String Nat)).producerCalls = 1 := by
  constructor <;> rfl

/-- C3 amended: when the store's get fails, `getOrSetCache` does not
surface a storage error — the destructuring `const { data }` discards the
`error` field, so the failure reads as a miss: the producer is invoked
and its outcome (its value, or its own error) is what the caller gets. -/
theorem C3_amended_get_failure_is_miss {α ε : Type} (cfg : Config)
    (st : Store α) (now ttlHours : Nat) (key : String)
    (fetcher : Except ε α)
    (hLive : hasValidCredentialsInit cfg = true)
    (hGetF : st.getFails = true) :
    (getOrSetCache cfg st now key fetcher ttlHours).result =
      fetcher.mapError JsError.producer ∧
    (getOrSetCache cfg st now key fetcher ttlHours).producerCalls = 1 ∧
    (getOrSetCache cfg st now key fetcher ttlHours).storeGets = 1 := by
  have hCache := cacheCheck_of_init cfg hLive
  cases fetcher <;>
    simp [getOrSetCache, cacheCompute, hCache, hLive, hGetF,
      Except.mapError]

/-- Witness for the amended C3. -/
theorem C3_amended_witness :
    (getOrSetCache ⟨some "https://example.supabase.co", some "svc-key"⟩
      (⟨[⟨"j", 42, 99999999⟩], true, false⟩ : Store Nat) 5 "j"
      (Except.ok 8 : Except String Nat)).result = Except.ok 8 ∧
    (getOrSetCache ⟨some "https://example.supabase.co", some "svc-key"⟩
      (⟨[⟨"j", 42, 99999999⟩], true, false⟩ : Store Nat) 5 "j"
      (Except.ok 8 : Except String Nat)).producerCalls = 1 ∧
    (getOrSetCache ⟨some "https://example.supabase.co", some "svc-key"⟩
      (⟨[⟨"j", 42, 99999999⟩], true, false⟩ : Store Nat) 5 "j"
      (Except.ok 8 : Except String Nat)).storeGets = 1 :=
  C3_amended_get_failure_is_miss
    ⟨some "https://example.supabase.co", some "svc-key"⟩
    ⟨[⟨"j", 42, 99999999⟩], true, false⟩ 5 1 "j" (Except.ok 8)
    (by decide) rfl

/-- C4 counterexample: with a valid `SUPABASE_URL` but no service-role
key, the Degraded-Mode Detector of `initializeSupabase` reports the store
unavailable (it hands back the mock client), yet `getOrSetCache` does not
bypass the cache — its own check inspects only the URL. It issues the get
against the mock client (which resolves with no row), invokes the
producer, and then crashes with a TypeError at the write-back line
(`from('cache').upsert` does not exist on the mock client), so the
producer's result 5 is never returned. -/
theorem C4_counterexample :
    hasValidCredentialsInit
      ⟨some "https://example.supabase.co", none⟩ = false ∧
    (getOrSetCache ⟨some "https://example.supabase.co", none⟩
      (⟨[], false, false⟩ : Store Nat) 0 "k"
      (Except.ok 5 : Except String Nat)).storeGets = 1 ∧
    (getOrSetCache ⟨some "https://example.supabase.co", none⟩
      (⟨[], false, false⟩ : Store Nat) 0 "k"
      (Except.ok 5 : Except String Nat)).producerCalls = 1 ∧
    (getOrSetCache ⟨some "https://example.supabase.co", none⟩
      (⟨[], false, false⟩ : Store Nat) 0 "k"
      (Except.ok 5 : Except String Nat)).result =
      Except.error (JsError.typeError upsertTypeErrorMsg) := by
  refine ⟨rfl, rfl, rfl, rfl⟩

/-- C4 amended: the cache bypass is keyed on `getOrSetCache`'s own
URL-only check, not on the Degraded-Mode Detector. Whenever
`SUPABASE_URL` is unset, empty or the placeholder, `getOrSetCache`
performs no store get and no store put for any key: it invokes the
producer directly and returns its outcome with no write-back. When
`SUPABASE_URL` is valid but the service-role key is missing or a
placeholder — the other way the detector reports the store unavailable —
`getOrSetCache` still issues the get against the mock client and invokes
the producer, and then, because the mock client exposes `upsert` only
under `select()`, a successful producer run ends in a TypeError at the
write-back line instead of the producer's result (a producer error still
propagates as the producer's error, thrown before the write-back). -/
theorem C4_amended_urlcheck_bypass {α ε : Type} (cfg : Config)
    (st : Store α) (now ttlHours : Nat) (key : String)
    (fetcher : Except ε α) (v : α) (err : ε) :
    (hasValidCredentialsCache cfg = false →
      getOrSetCache cfg st now key fetcher ttlHours =
        ⟨fetcher.mapError JsError.producer, st.entries, 1, 0, 0⟩) ∧
    (hasValidCredentialsCache cfg = true →
      hasValidCredentialsInit cfg = false →
      getOrSetCache cfg st now key (Except.ok v : Except ε α) ttlHours =
        ⟨Except.error (JsError.typeError upsertTypeErrorMsg),
         st.entries, 1, 1, 0⟩) ∧
    (hasValidCredentialsCache cfg = true →
      hasValidCredentialsInit cfg = false →
      getOrSetCache cfg st now key (Except.error err : Except ε α) ttlHours =
        ⟨Except.error (JsError.producer err), st.entries, 1, 1, 0⟩) := by
  refine ⟨fun hBypass => ?_, fun hCache hMock => ?_, fun hCache hMock => ?_⟩
  · simp [getOrSetCache, hBypass]
  · simp [getOrSetCache, cacheCompute, hCache, hMock]
  · simp [getOrSetCache, cacheCompute, hCache, hMock]

/-- Witness for the amended C4: an unset URL takes the bypass and the
producer's value comes back with no store traffic; a valid URL with a
missing key reaches the mock client, where a successful producer ends in
the write-back TypeError and a failing producer propagates its own
error. -/
theorem C4_amended_witness :
    getOrSetCache (⟨none, none⟩ : Config)
      (⟨[⟨"k", 3, 50⟩], false, false⟩ : Store Nat) 0 "k"
      (Except.ok 5 : Except String Nat) =
      ⟨Except.ok 5, [⟨"k", 3, 50⟩], 1, 0, 0⟩ ∧
    getOrSetCache ⟨some "https://example.supabase.co", none⟩
      (⟨[⟨"k", 3, 50⟩], false, false⟩ : Store Nat) 0 "k"
      (Except.ok 5 : Except String Nat) =
      ⟨Except.error (JsError.typeError upsertTypeErrorMsg),
       [⟨"k", 3, 50⟩], 1, 1, 0⟩ ∧
    getOrSetCache ⟨some "https://example.supabase.co", none⟩
      (⟨[⟨"k", 3, 50⟩], false, false⟩ : Store Nat) 0 "k"
      (Except.error "boom" : Except String Nat) =
      ⟨Except.error (JsError.producer "boom"), [⟨"k", 3, 50⟩], 1, 1, 0⟩ :=
  ⟨(C4_amended_urlcheck_bypass ⟨none, none⟩
      ⟨[⟨"k", 3, 50⟩], false, false⟩ 0 1 "k" (Except.ok 5) 5 "boom").1
      rfl,
   (C4_amended_urlcheck_bypass ⟨some "https://example.supabase.co", none⟩
      ⟨[⟨"k", 3, 50⟩], false, false⟩ 0 1 "k" (Except.ok 5) 5
      "boom").2.1 rfl rfl,
   (C4_amended_urlcheck_bypass ⟨some "https://example.supabase.co", none⟩
      ⟨[⟨"k", 3, 50⟩], false, false⟩ 0 1 "k" (Except.ok 5) 5
      "boom").2.2 rfl rfl⟩

/-- C6: when the producer fails on a miss, `getOrSetCache` propagates the
error and writes nothing to the cache — the rows are unchanged and no
upsert is issued (no tombstone entry). -/
theorem C6_producer_error_propagates {α ε : Type} (cfg : Config)
    (st : Store α) (now ttlHours : Nat) (key : String) (err : ε)
    (hLive : hasValidCredentialsInit cfg = true)
    (hGet : st.getFails = false)
    (hMiss : lookupEntry st.entries key = none) :
    getOrSetCache cfg st now key (Except.error err : Except ε α) ttlHours =
      ⟨Except.error (JsError.producer err), st.entries, 1, 1, 0⟩ := by
  have hCache := cacheCheck_of_init cfg hLive
  simp [getOrSetCache, cacheCompute, hCache, hLive, hGet, hMiss]

/-- Witness for C6. -/
theorem C6_producer_error_witness :
    getOrSetCache ⟨some "https://example.supabase.co", some "svc-key"⟩
      (⟨[⟨"other", 9, 77⟩], false, false⟩ : Store Nat) 0 "k"
      (Except.error "upstream down" : Except String Nat) =
      ⟨Except.error (JsError.producer "upstream down"),
       [⟨"other", 9, 77⟩], 1, 1, 0⟩ :=
  C6_producer_error_propagates
    ⟨some "https://example.supabase.co", some "svc-key"⟩
    ⟨[⟨"other", 9, 77⟩], false, false⟩ 0 1 "k" "upstream down"
    (by decide) rfl (by decide)

/-- C7: when the store's upsert fails after a successful producer
invocation, `getOrSetCache` still returns the producer's result — the put
is issued but its failure is non-fatal (the rows just stay unchanged). -/
theorem C7_put_failure_nonfatal {α ε : Type} (cfg : Config)
    (st : Store α) (now ttlHours : Nat) (key : String) (v : α)
    (hLive : hasValidCredentialsInit cfg = true)
    (hGet : st.getFails = false) (hPutF : st.putFails = true)
    (hMiss : lookupEntry st.entries key = none) :
    getOrSetCache cfg st now key (Except.ok v : Except ε α) ttlHours =
      ⟨Except.ok v, st.entries, 1, 1, 1⟩ := by
  have hCache := cacheCheck_of_init cfg hLive
  simp [getOrSetCache, cacheCompute, hCache, hLive, hGet, hPutF, hMiss]

/-- Witness for C7. -/
theorem C7_put_failure_witness :
    getOrSetCache ⟨some "https://example.supabase.co", some "svc-key"⟩
      (⟨[], false, true⟩ : Store Nat) 0 "k"
      (Except.ok 11 : Except String Nat) =
      ⟨Except.ok 11, [], 1, 1, 1⟩ :=
  C7_put_failure_nonfatal
    ⟨some "https://example.supabase.co", some "svc-key"⟩
    ⟨[], false, true⟩ 0 1 "k" 11 (by decide) rfl rfl rfl

/-- C8: after `cleanExpiredCache` runs at `now` (with live credentials),
no row with `expires_at < now` remains, every row with `expires_at ≥ now`
survives, and running it again immediately changes nothing. -/
theorem C8_clean_expired {α : Type} (cfg : Config)
    (entries : List (CacheEntry α)) (now : Nat)
    (hLive : hasValidCredentialsCache cfg = true) :
    (∀ e ∈ cleanExpiredCache cfg entries now, now ≤ e.expires_at) ∧
    (∀ e ∈ entries, now ≤ e.expires_at →
      e ∈ cleanExpiredCache cfg entries now) ∧
    cleanExpiredCache cfg (cleanExpiredCache cfg entries now) now =
      cleanExpiredCache cfg entries now := by
  unfold cleanExpiredCache
  rw [if_pos hLive, if_pos hLive]
  refine ⟨?_, ?_, ?_⟩
  · intro e he
    have := (List.mem_filter.mp he).2
    simp only [decide_eq_true_eq] at this
    omega
  · intro e he hle
    refine List.mem_filter.mpr ⟨he, ?_⟩
    simp only [decide_eq_true_eq]
    omega
  · apply List.filter_eq_self.mpr
    intro e he
    exact (List.mem_filter.mp he).2

/-- Witness for C8 at a concrete table. -/
theorem C8_clean_expired_witness :
    (∀ e ∈ cleanExpiredCache
      ⟨some "https://example.supabase.co", some "svc-key"⟩
      ([⟨"a", 1, 5⟩, ⟨"b", 2, 10⟩, ⟨"c", 3, 100⟩] : List (CacheEntry Nat))
      10, 10 ≤ e.expires_at) ∧
    (∀ e ∈ ([⟨"a", 1, 5⟩, ⟨"b", 2, 10⟩, ⟨"c", 3, 100⟩] :
        List (CacheEntry Nat)), 10 ≤ e.expires_at →
      e ∈ cleanExpiredCache
        ⟨some "https://example.supabase.co", some "svc-key"⟩
        [⟨"a", 1, 5⟩, ⟨"b", 2, 10⟩, ⟨"c", 3, 100⟩] 10) ∧
    cleanExpiredCache ⟨some "https://example.supabase.co", some "svc-key"⟩
      (cleanExpiredCache ⟨some "https://example.supabase.co", some "svc-key"⟩
        [⟨"a", 1, 5⟩, ⟨"b", 2, 10⟩, ⟨"c", 3, 100⟩] 10) 10 =
      cleanExpiredCache ⟨some "https://example.supabase.co", some "svc-key"⟩
        [⟨"a", 1, 5⟩, ⟨"b", 2, 10⟩, ⟨"c", 3, 100⟩] 10 :=
  C8_clean_expired ⟨some "https://example.supabase.co", some "svc-key"⟩
    [⟨"a", 1, 5⟩, ⟨"b", 2, 10⟩, ⟨"c", 3, 100⟩] 10 (by decide)

/-- C2 counterexample: with both API keys configured and the Gemini call
failing, `performGeocoding` propagates an error to its caller instead of
returning its mock result. -/
theorem C2_counterexample :
    performGeocoding (some "gemini-key") (some "mapbox-token")
      (Except.error "ECONNRESET") (Except.ok [⟨-74, 40, 1⟩]) =
      Except.error
        "Geocoding failed: Failed to extract location with Gemini API" :=
  rfl

/-- C2 amended: the Twitter fetch and the official-updates scrape fall
back to their mock variants on any live failure, but the geocoding
adapter propagates a live failure (of either the Gemini extraction or
the Mapbox lookup) as a `Geocoding failed: ...` error — its mock result
is used only when the API keys are not configured. -/
theorem C2_amended_fallback (now : Nat) (rand : Nat → Engagement)
    (msg gmsg mmsg : String) (source : Option String)
    (gk mt : Option String) (placeName : String)
    (mo : Except String (List MapboxFeature))
    (hKeys : (jsTruthy gk && jsTruthy mt) = true) :
    fetchTwitterPosts now rand (Except.error msg) =
      generateMockSocialMediaPosts "twitter" now ∧
    scrapeOfficialUpdates source now (Except.error msg) =
      generateMockOfficialUpdates source now ∧
    performGeocoding gk mt (Except.error gmsg) mo =
      Except.error
        "Geocoding failed: Failed to extract location with Gemini API" ∧
    performGeocoding gk mt (Except.ok placeName) (Except.error mmsg) =
      Except.error "Geocoding failed: Failed to geocode with Mapbox API" := by
  refine ⟨rfl, rfl, ?_, ?_⟩ <;>
    simp [performGeocoding, extractLocationWithGemini, geocodeWithMapbox,
      hKeys]

/-- Witness for the amended C2. -/
theorem C2_amended_witness :
    fetchTwitterPosts 1000 (fun _ => ⟨0, 0, 0⟩)
      (Except.error "timeout") =
      generateMockSocialMediaPosts "twitter" 1000 ∧
    scrapeOfficialUpdates (some "fema") 1000 (Except.error "timeout") =
      generateMockOfficialUpdates (some "fema") 1000 ∧
    performGeocoding (some "g") (some "m") (Except.error "timeout")
      (Except.ok []) =
      Except.error
        "Geocoding failed: Failed to extract location with Gemini API" ∧
    performGeocoding (some "g") (some "m") (Except.ok "Paris")
      (Except.error "timeout") =
      Except.error "Geocoding failed: Failed to geocode with Mapbox API" :=
  C2_amended_fallback 1000 (fun _ => ⟨0, 0, 0⟩) "timeout" "timeout"
    "timeout" (some "fema") (some "g") (some "m") "Paris" (Except.ok [])
    (by decide)

/-- C5: when the scraper's selectors extract zero items from a fetched
page, `scrapeOfficialUpdates` returns the mock official-updates payload —
exactly the 3 fixed-shape entries of `generateMockOfficialUpdates` (each
an `OfficialUpdate` with id, source, title, content, timestamp, priority
and url) — never an empty list. -/
theorem C5_zero_extracted_gives_mock (source : Option String) (now : Nat)
    (items : List RawItem)
    (hZero : extractUpdates source now items = []) :
    scrapeOfficialUpdates source now (Except.ok items) =
      generateMockOfficialUpdates source now ∧
    (generateMockOfficialUpdates source now).length = 3 ∧
    scrapeOfficialUpdates source now (Except.ok items) ≠ [] := by
  have h : scrapeOfficialUpdates source now (Except.ok items) =
      generateMockOfficialUpdates source now := by
    simp [scrapeOfficialUpdates, hZero]
  refine ⟨h, rfl, ?_⟩
  rw [h]
  simp [generateMockOfficialUpdates]

/-- Witness for C5: a page whose elements all lack a title or a body. -/
theorem C5_zero_extracted_witness :
    scrapeOfficialUpdates (some "fema") 0
      (Except.ok [⟨"", "body text", ""⟩, ⟨"A title", "", "ts"⟩]) =
      generateMockOfficialUpdates (some "fema") 0 ∧
    (generateMockOfficialUpdates (some "fema") 0).length = 3 ∧
    scrapeOfficialUpdates (some "fema") 0
      (Except.ok [⟨"", "body text", ""⟩, ⟨"A title", "", "ts"⟩]) ≠ [] :=
  C5_zero_extracted_gives_mock (some "fema") 0
    [⟨"", "body text", ""⟩, ⟨"A title", "", "ts"⟩] rfl

/-- C9: because the resources router registers `GET /:id` before
`GET /nearby` and `GET /types`, requests to `/nearby` and `/types` are
dispatched to the `/:id` handler with `id` bound to `"nearby"` or
`"types"`, and no request path whatsoever reaches the dedicated nearby or
types handlers. -/
theorem C9_route_shadowing :
    dispatch resourcesGetRoutes ["nearby"] =
      some ("getResourceById", [("id", "nearby")]) ∧
    dispatch resourcesGetRoutes ["types"] =
      some ("getResourceById", [("id", "types")]) ∧
    (∀ (path : List String) (b : List (String × String)),
      dispatch resourcesGetRoutes path ≠ some ("getNearbyResources", b) ∧
      dispatch resourcesGetRoutes path ≠ some ("getResourceTypes", b)) := by
  refine ⟨rfl, rfl, ?_⟩
  intro path b
  match path with
  | [] =>
    constructor <;> simp [dispatch, resourcesGetRoutes, segMatches,
      List.find?]
  | [x] =>
    constructor <;> simp [dispatch, resourcesGetRoutes, segMatches,
      segBindings, List.find?]
  | x :: y :: rest =>
    constructor <;> simp [dispatch, resourcesGetRoutes, segMatches,
      List.find?]

/-- C10: the user attached by `authMiddleware` is always one of
`{id: u1, role: admin}` and `{id: u2, role: contributor}`, chosen by a
random draw that ignores the request entirely; consequently the outcome
of the ownership-checked update/delete is not a function of the request —
the same request on a disaster owned by `u1` can proceed under one draw
and be rejected with 403 under the other. -/
theorem C10_auth_nondeterministic :
    (∀ (coin : Fin 2) (request : String),
      authMiddleware request coin = ⟨"u1", "admin"⟩ ∨
      authMiddleware request coin = ⟨"u2", "contributor"⟩) ∧
    (∀ (coin : Fin 2) (req1 req2 : String),
      authMiddleware req1 coin = authMiddleware req2 coin) ∧
    (∃ c1 c2 : Fin 2,
      ownershipCheck (some ⟨"d1", "u1"⟩)
        (authMiddleware "PUT /disasters/d1" c1) ≠
      ownershipCheck (some ⟨"d1", "u1"⟩)
        (authMiddleware "PUT /disasters/d1" c2)) := by
  refine ⟨?_, ?_, ?_⟩
  · intro coin request
    fin_cases coin
    · exact Or.inl rfl
    · exact Or.inr rfl
  · intro coin req1 req2
    rfl
  · exact ⟨0, 1, by decide⟩

end DisasterPlatform
